import Mathlib

/-!
Verification of the report-persistence and prompt-construction logic of the
energy-audit application (`src/app.py`).

The embedding is shallow: the JSON history file is modelled by `FileState`
(missing, unreadable, or holding a parsed JSON value), JSON values by the
inductive `Json`, and each Python helper (`save_report_to_history`,
`load_history`, `delete_report`, `analyze_image_with_gemini`) by a Lean
function over these types.  Python exceptions that escape a function are
modelled by `Option` (`none` = uncaught exception); the bare `except:`
blocks in the source are modelled by the corresponding fallback value.
The remote model (`model.generate_content`) is an oracle parameter
`gen : String → Except String String`; the instrumentation fields
`calls`/`sent` record how often it was invoked and with which prompt text.
-/

set_option maxRecDepth 100000

namespace EnergyAudit

/-- A JSON value, as produced by `json.load` in `src/app.py`.  Objects keep
their fields as an association list with distinct keys (Python dicts). -/
inductive Json where
  | null
  | bool (b : Bool)
  | num (n : Int)
  | str (s : String)
  | arr (l : List Json)
  | obj (fields : List (String × Json))

/-- State of the `history.json` file: absent, present but unparsable, or
present with a parsed JSON value. -/
inductive FileState where
  | missing
  | unreadable
  | json (j : Json)

/-- A persisted report record, with the five fields written by
`save_report_to_history` (`src/app.py` lines 94-100). -/
structure ReportEntry where
  id : String
  date : String
  type : String
  summary : String
  full_report : String
deriving DecidableEq

/-- The `report_data` dict passed to `save_report_to_history`: the three keys
the function reads with `.get`, each possibly absent. -/
structure ReportData where
  type : Option String
  summary : Option String
  full_report : Option String
deriving DecidableEq

/-- JSON encoding of a report entry, as `json.dump` writes it. -/
def entryToJson (e : ReportEntry) : Json :=
  Json.obj [("id", Json.str e.id), ("date", Json.str e.date),
            ("type", Json.str e.type), ("summary", Json.str e.summary),
            ("full_report", Json.str e.full_report)]

/-- `load_history` (`src/app.py` lines 107-116): returns the parsed JSON when
the file exists and parses, and the empty list `[]` when the file is missing
or `json.load` raises (bare `except:`). -/
def load_history (fs : FileState) : Json :=
  match fs with
  | FileState.missing => Json.arr []
  | FileState.unreadable => Json.arr []
  | FileState.json j => j

/-- The fresh entry built in `save_report_to_history` (`src/app.py` lines
94-100).  `nowId`/`nowDate` are the two `datetime.datetime.now()` formattings;
the three `.get` calls fall back to their defaults. -/
def mkReportEntry (report_data : ReportData) (nowId nowDate : String) : ReportEntry :=
  { id := nowId
    date := nowDate
    type := report_data.type.getD "Unknown"
    summary := report_data.summary.getD "No summary"
    full_report := report_data.full_report.getD "" }

/-- `save_report_to_history` (`src/app.py` lines 81-105).  The function first
re-reads the file with exactly the logic of `load_history` (exists check plus
`try`/bare `except:` returning `[]`), then calls `history.insert(0, entry)`
and rewrites the file.  `insert` only exists on lists: on any other parsed
JSON value Python raises `AttributeError`, modelled by `none`. -/
def save_report_to_history (fs : FileState) (report_data : ReportData)
    (nowId nowDate : String) : Option FileState :=
  let history := load_history fs
  let report_entry := mkReportEntry report_data nowId nowDate
  match history with
  | Json.arr l => some (FileState.json (Json.arr (entryToJson report_entry :: l)))
  | _ => none

/-- Python dict subscript lookup over an association list. -/
def jlookup : List (String × Json) → String → Option Json
  | [], _ => none
  | (k, v) :: rest, key => if k = key then some v else jlookup rest key

/-- `item[key]`: succeeds only on objects holding the key; on any other value
Python raises (`TypeError`/`KeyError`), modelled by `none`. -/
def jfield (j : Json) (key : String) : Option Json :=
  match j with
  | Json.obj fields => jlookup fields key
  | _ => none

/-- Python iteration `for item in history` over a parsed JSON value: lists
yield their elements, dicts their keys, strings their one-character
substrings; numbers, booleans and `None` are not iterable (`TypeError`). -/
def pyIterate : Json → Option (List Json)
  | Json.arr l => some l
  | Json.obj fields => some (fields.map (fun kv => Json.str kv.1))
  | Json.str s => some (s.toList.map (fun c => Json.str (String.mk [c])))
  | _ => none

/-- Python `v != report_id` where `report_id` is a string: string values
compare by content, any non-string value is simply unequal (no exception). -/
def pyNeStr (v : Json) (s : String) : Bool :=
  match v with
  | Json.str t => t ≠ s
  | _ => true

/-- The list comprehension of `delete_report` (`src/app.py` line 122):
`[item for item in history if item["id"] != report_id]`.  Each `item["id"]`
may raise (non-dict item, or missing key), aborting the whole comprehension:
modelled by `none`. -/
def filter_by_id : List Json → String → Option (List Json)
  | [], _ => some []
  | item :: rest, rid =>
    match jfield item "id" with
    | none => none
    | some v =>
      match filter_by_id rest rid with
      | none => none
      | some kept => some (if pyNeStr v rid then item :: kept else kept)

/-- `delete_report` (`src/app.py` lines 118-125): loads the history, filters
out entries whose `"id"` equals `report_id`, rewrites the file.  An exception
during iteration or lookup escapes (`none`); otherwise the filtered list is
written back. -/
def delete_report (fs : FileState) (report_id : String) : Option FileState :=
  match pyIterate (load_history fs) with
  | none => none
  | some items =>
    match filter_by_id items report_id with
    | none => none
    | some new_history => some (FileState.json (Json.arr new_history))

/-- The file state after `json.dump` of a list of well-formed entries. -/
def writeEntries (l : List ReportEntry) : FileState :=
  FileState.json (Json.arr (l.map entryToJson))

/-- `fs` is a store whose loaded content is the entry sequence `l` — this
covers a missing or unreadable file (`l = []`) and a file written by
`json.dump` of encoded entries. -/
def goodStore (fs : FileState) (l : List ReportEntry) : Prop :=
  load_history fs = Json.arr (l.map entryToJson)

/-! ## Prompt construction (`analyze_image_with_gemini`, `src/app.py` 127-151)

The triple-quoted Python strings are transcribed byte-for-byte, including
their leading indentation and the trailing blank after "Morocco." on line
135 of the source. -/

/-- Opening part of the f-string at `src/app.py` lines 134-139, up to the
interpolated `{prompt}`. -/
def promptPreamble : String :=
  "\n        You are an expert Energy Auditor in Morocco. \n        Your goal is to analyze energy bills and consumption based on Moroccan Norms (AMEE, ONEE).\n        Currency is Moroccan Dirham (MAD). Voltage is 220V/380V.\n        \n        TASK:\n        "

/-- The text between the interpolated `{prompt}` and the appliance section
(lines 140-142 of the f-string). -/
def promptGap : String := "\n        \n        "

/-- Closing part of the f-string, after the appliance section (lines
142-146). -/
def promptClosing : String :=
  "\n        \n        Please provide the response in structured Markdown format with clear headings.\n        Include specific recommendations for energy efficiency in Morocco.\n        "

/-- The literal header prepended to the appliance text on line 142. -/
def applianceHeader : String := "ADDITIONAL DATA PROVIDED BY USER (Appliances):"

/-- The conditional expression on line 142:
`"ADDITIONAL DATA ..." + appliances_info if is_detailed else ""`.
When `is_detailed` is true and `appliances_info` is Python `None` (its
default), `str + None` raises `TypeError`, modelled by `none`. -/
def additional_section : Bool → Option String → Option String
  | true, some info => some (applianceHeader ++ info)
  | true, none => none
  | false, _ => some ""

/-- The full f-string of lines 134-146, assembled around the task `prompt`
and the appliance section; `none` when the section raises. -/
def full_prompt (prompt : String) (is_detailed : Bool)
    (appliances_info : Option String) : Option String :=
  (additional_section is_detailed appliances_info).map
    (fun sec => promptPreamble ++ prompt ++ promptGap ++ sec ++ promptClosing)

/-- Python 3 message of the `TypeError` raised by `str + None` on line 142;
it is caught by the surrounding `try` and surfaced via line 151. -/
def noneConcatMsg : String := "can only concatenate str (not \x22NoneType\x22) to str"

/-- Outcome of one call of `analyze_image_with_gemini`: the returned text,
plus instrumentation of the single `model.generate_content` call site
(how many times it ran, and with which prompt text). -/
structure GenCall where
  text : String
  calls : Nat
  sent : List String
deriving DecidableEq

/-- `analyze_image_with_gemini` (`src/app.py` lines 127-151).  `api_key`
models truthiness of the module-level key; `gen` is the remote model
(`model.generate_content`), returning generated text or raising.  Any
exception inside the `try` — prompt construction included — is caught and
returned as text prefixed with the error marker. -/
def analyze_image_with_gemini (api_key : Bool) (gen : String → Except String String)
    (prompt : String) (is_detailed : Bool) (appliances_info : Option String) : GenCall :=
  if api_key = false then
    { text := "Error: API Key not provided.", calls := 0, sent := [] }
  else
    match full_prompt prompt is_detailed appliances_info with
    | none =>
      { text := "Error during analysis: " ++ noneConcatMsg, calls := 0, sent := [] }
    | some fp =>
      match gen fp with
      | Except.ok t => { text := t, calls := 1, sent := [fp] }
      | Except.error e =>
        { text := "Error during analysis: " ++ e, calls := 1, sent := [fp] }

/-! ## Page flows (`src/app.py` sections 6 and 7) -/

/-- The task prompt of the Simple Audit page (`src/app.py` lines 200-206). -/
def simple_prompt : String :=
  "\n                    1. Extract the total consumption (kWh).\n                    2. Extract the total amount (MAD).\n                    3. Identify the billing period.\n                    4. Analyze if the consumption is high for a standard household in Morocco.\n                    5. Provide 3 specific recommendations to reduce this bill.\n                    "

/-- The task prompt of the Detailed Audit page (`src/app.py` lines 257-264). -/
def detailed_prompt : String :=
  "\n                1. Extract total consumption (kWh) and cost (MAD) from the uploaded bill.\n                2. Analyze the provided appliance list.\n                3. Estimate the theoretical consumption of these appliances.\n                4. Compare the theoretical consumption with the actual bill consumption.\n                5. Identify discrepancies (e.g., hidden consumption, old appliances, insulation issues).\n                6. Provide a detailed action plan to optimize energy use according to Moroccan standards.\n                "

/-- Observable result of one button click on an audit page: the report text
rendered by `st.markdown` (if any), the `st.error` validation message (if
any), the remote-call count, the prompts sent, and the resulting store state
(`none` = an uncaught exception escaped the page script). -/
structure ClickResult where
  displayed : Option String
  validation_error : Option String
  remote_calls : Nat
  sent : List String
  store : Option FileState

/-- The Simple Audit page's analyze-button flow (`src/app.py` lines 197-222):
with an uploaded image, it runs the analysis and — because of `if result:` —
persists whenever the returned text is non-empty.  Without an image the
button is never shown (`st.info` only). -/
def simple_audit_click (api_key : Bool) (gen : String → Except String String)
    (uploaded : Bool) (fs : FileState) (nowId nowDate : String) : ClickResult :=
  if uploaded then
    let a := analyze_image_with_gemini api_key gen simple_prompt false none
    let result := a.text
    let store :=
      if result ≠ "" then
        save_report_to_history fs
          { type := some "Simple Audit", summary := some "Simple Bill Analysis",
            full_report := some result } nowId nowDate
      else some fs
    { displayed := some result, validation_error := none,
      remote_calls := a.calls, sent := a.sent, store := store }
  else
    { displayed := none, validation_error := none,
      remote_calls := 0, sent := [], store := some fs }

/-- The Detailed Audit page's generate-button flow (`src/app.py` lines
254-282): requires an uploaded image and truthy (non-empty) appliance text;
otherwise reports the corresponding `st.error` without touching the model or
the store.  Persistence is again guarded only by `if result:`. -/
def detailed_audit_click (api_key : Bool) (gen : String → Except String String)
    (uploaded : Bool) (appliance_info : String) (fs : FileState)
    (nowId nowDate : String) : ClickResult :=
  if uploaded ∧ appliance_info ≠ "" then
    let a := analyze_image_with_gemini api_key gen detailed_prompt true (some appliance_info)
    let result := a.text
    let store :=
      if result ≠ "" then
        save_report_to_history fs
          { type := some "Detailed Audit",
            summary := some "Detailed Analysis with Appliances",
            full_report := some result } nowId nowDate
      else some fs
    { displayed := some result, validation_error := none,
      remote_calls := a.calls, sent := a.sent, store := store }
  else if uploaded = false then
    { displayed := none, validation_error := some "Please upload a bill image.",
      remote_calls := 0, sent := [], store := some fs }
  else
    { displayed := none, validation_error := some "Please enter appliance information.",
      remote_calls := 0, sent := [], store := some fs }

/-! ## Auxiliary executable definitions used in the statements -/

/-- Whether a JSON value is an array. -/
def isArr : Json → Bool
  | Json.arr _ => true
  | _ => false

/-- `needle` occurs at the head of the list. -/
def listStarts : List Char → List Char → Bool
  | _, [] => true
  | [], _ :: _ => false
  | c :: t, n :: m => c == n && listStarts t m

/-- `needle` occurs somewhere in the list (Python `needle in hay`). -/
def listHasSub : List Char → List Char → Bool
  | [], needle => listStarts [] needle
  | c :: t, needle => listStarts (c :: t) needle || listHasSub t needle

/-- Substring occurrence test on strings. -/
def strHasSub (hay needle : String) : Bool :=
  listHasSub hay.data needle.data

/-- A sample stored entry whose id collides with `dupEntryB` (the id is a
second-resolution timestamp, so two reports saved within the same second
collide — `src/app.py` line 95). -/
def dupEntryA : ReportEntry :=
  { id := "20240101000000", date := "2024-01-01 00:00", type := "Simple Audit",
    summary := "Simple Bill Analysis", full_report := "first report" }

/-- A second stored entry with the same id as `dupEntryA`. -/
def dupEntryB : ReportEntry :=
  { id := "20240101000000", date := "2024-01-01 00:00", type := "Simple Audit",
    summary := "Simple Bill Analysis", full_report := "second report" }

/-- Sample entries with distinct ids, for witness instantiations. -/
def entryR1 : ReportEntry :=
  { id := "20240102090000", date := "2024-01-02 09:00", type := "Simple Audit",
    summary := "Simple Bill Analysis", full_report := "report one" }

/-- Second sample entry with a distinct id. -/
def entryR2 : ReportEntry :=
  { id := "20240103100000", date := "2024-01-03 10:00", type := "Detailed Audit",
    summary := "Detailed Analysis with Appliances", full_report := "report two" }

/-! ## Store lemmas -/

theorem jfield_entryToJson_id (e : ReportEntry) :
    jfield (entryToJson e) "id" = some (Json.str e.id) := rfl

theorem filter_by_id_map (l : List ReportEntry) (rid : String) :
    filter_by_id (l.map entryToJson) rid
      = some ((l.filter fun e => e.id ≠ rid).map entryToJson) := by
  induction l with
  | nil => rfl
  | cons e t ih =>
    by_cases h : e.id = rid <;>
      simp [filter_by_id, jfield_entryToJson_id, ih, pyNeStr, h, List.filter_cons]

theorem delete_report_goodStore (fs : FileState) (l : List ReportEntry) (rid : String)
    (h : goodStore fs l) :
    delete_report fs rid = some (writeEntries (l.filter fun e => e.id ≠ rid)) := by
  have h' : load_history fs = Json.arr (l.map entryToJson) := h
  simp [delete_report, h', pyIterate, filter_by_id_map, writeEntries]

theorem filter_by_id_mem (items : List Json) (rid : String) (kept : List Json)
    (h : filter_by_id items rid = some kept) :
    ∀ item ∈ kept, ∃ v, jfield item "id" = some v ∧ pyNeStr v rid = true := by
  induction items generalizing kept with
  | nil =>
    simp only [filter_by_id, Option.some.injEq] at h
    subst h; simp
  | cons a t ih =>
    cases hv : jfield a "id" with
    | none => simp [filter_by_id, hv] at h
    | some v =>
      cases hk : filter_by_id t rid with
      | none => simp [filter_by_id, hv, hk] at h
      | some kept₂ =>
        have htail := ih kept₂ hk
        simp only [filter_by_id, hv, hk, Option.some.injEq] at h
        by_cases hp : pyNeStr v rid = true
        · rw [if_pos hp] at h
          subst h
          intro item hitem
          rcases List.mem_cons.mp hitem with rfl | hmem
          · exact ⟨v, hv, hp⟩
          · exact htail item hmem
        · rw [if_neg hp] at h
          subst h
          exact htail

theorem filter_by_id_of_pass (items : List Json) (rid : String)
    (h : ∀ item ∈ items, ∃ v, jfield item "id" = some v ∧ pyNeStr v rid = true) :
    filter_by_id items rid = some items := by
  induction items with
  | nil => rfl
  | cons a t ih =>
    obtain ⟨v, hv, hp⟩ := h a (List.mem_cons_self a t)
    have ht := ih (fun i hi => h i (List.mem_cons_of_mem a hi))
    simp [filter_by_id, hv, ht, hp]

theorem filter_eq_self_of_not_mem (l : List ReportEntry) (rid : String)
    (h : rid ∉ l.map ReportEntry.id) :
    (l.filter fun x => x.id ≠ rid) = l := by
  rw [List.filter_eq_self]
  intro x hx
  simp only [decide_eq_true_eq]
  exact fun he => h (he ▸ List.mem_map_of_mem ReportEntry.id hx)

theorem filter_decomp_of_nodup (l : List ReportEntry) (rid : String)
    (hnd : (l.map ReportEntry.id).Nodup) (hmem : rid ∈ l.map ReportEntry.id) :
    ∃ l₁ e l₂, l = l₁ ++ e :: l₂ ∧ e.id = rid
      ∧ (l.filter fun x => x.id ≠ rid) = l₁ ++ l₂ := by
  induction l with
  | nil => simp at hmem
  | cons a t ih =>
    simp only [List.map_cons, List.nodup_cons] at hnd
    obtain ⟨hna, hndt⟩ := hnd
    rcases List.mem_cons.mp hmem with heq | hmemt
    · refine ⟨[], a, t, rfl, heq.symm, ?_⟩
      have hrest : (t.filter fun x => x.id ≠ rid) = t :=
        filter_eq_self_of_not_mem t rid (heq ▸ hna)
      rw [List.filter_cons, if_neg (by simp [heq]), hrest, List.nil_append]
    · have hane : a.id ≠ rid := fun he => hna (he.symm ▸ hmemt)
      obtain ⟨l₁, e, l₂, hsplit, hid, hfil⟩ := ih hndt hmemt
      refine ⟨a :: l₁, e, l₂, by simp [hsplit], hid, ?_⟩
      rw [List.filter_cons, if_pos (decide_eq_true hane), hfil, List.cons_append]

/-! ## Claim theorems -/

/-- Claim C2, counterexample: ids are second-resolution timestamps and may
collide by design; on a store holding two entries with the same id,
`delete_report` removes BOTH, so the loaded result is empty — whereas
removing exactly one matching entry would have left `[dupEntryA]` or
`[dupEntryB]`. -/
theorem delete_report_dup_counterexample :
    (delete_report (writeEntries [dupEntryA, dupEntryB]) "20240101000000").map load_history
      = some (Json.arr [])
    ∧ some (Json.arr []) ≠ some (Json.arr [entryToJson dupEntryA])
    ∧ some (Json.arr []) ≠ some (Json.arr [entryToJson dupEntryB]) := by
  refine ⟨rfl, ?_, ?_⟩ <;> simp [entryToJson]

/-- Claim C2, amended: on a well-formed store, `delete_report id` removes
every entry whose id matches (exactly one when the stored ids are pairwise
distinct and the id is present), leaves all other entries unchanged in their
original relative order, and is a silent no-op (not an error) when the id is
absent. -/
theorem delete_report_removes_matching (fs : FileState) (l : List ReportEntry)
    (rid : String) (h : goodStore fs l) :
    ∃ fs₁, delete_report fs rid = some fs₁
      ∧ load_history fs₁ = Json.arr ((l.filter fun e => e.id ≠ rid).map entryToJson)
      ∧ List.Sublist (l.filter fun e => e.id ≠ rid) l
      ∧ (∀ e ∈ l.filter (fun e => e.id ≠ rid), e.id ≠ rid)
      ∧ ((l.map ReportEntry.id).Nodup → rid ∈ l.map ReportEntry.id →
          ∃ l₁ e l₂, l = l₁ ++ e :: l₂ ∧ e.id = rid
            ∧ (l.filter fun e => e.id ≠ rid) = l₁ ++ l₂)
      ∧ (rid ∉ l.map ReportEntry.id → (l.filter fun e => e.id ≠ rid) = l) := by
  refine ⟨writeEntries (l.filter fun e => e.id ≠ rid),
    delete_report_goodStore fs l rid h, rfl, List.filter_sublist l, ?_,
    filter_decomp_of_nodup l rid, filter_eq_self_of_not_mem l rid⟩
  intro e he
  exact of_decide_eq_true (List.mem_filter.mp he).2

/-- Witness for `delete_report_removes_matching` at a concrete two-entry
store. -/
theorem delete_report_removes_matching_witness :
    ∃ fs₁, delete_report (writeEntries [entryR1, entryR2]) "20240102090000" = some fs₁
      ∧ load_history fs₁
          = Json.arr (([entryR1, entryR2].filter fun e => e.id ≠ "20240102090000").map entryToJson)
      ∧ List.Sublist ([entryR1, entryR2].filter fun e => e.id ≠ "20240102090000")
          [entryR1, entryR2]
      ∧ (∀ e ∈ [entryR1, entryR2].filter (fun e => e.id ≠ "20240102090000"),
          e.id ≠ "20240102090000")
      ∧ (([entryR1, entryR2].map ReportEntry.id).Nodup →
          "20240102090000" ∈ [entryR1, entryR2].map ReportEntry.id →
          ∃ l₁ e l₂, [entryR1, entryR2] = l₁ ++ e :: l₂ ∧ e.id = "20240102090000"
            ∧ ([entryR1, entryR2].filter fun e => e.id ≠ "20240102090000") = l₁ ++ l₂)
      ∧ ("20240102090000" ∉ [entryR1, entryR2].map ReportEntry.id →
          ([entryR1, entryR2].filter fun e => e.id ≠ "20240102090000") = [entryR1, entryR2]) :=
  delete_report_removes_matching (writeEntries [entryR1, entryR2]) [entryR1, entryR2]
    "20240102090000" rfl

/-- Claim C3: on a well-formed store, saving a report and then loading the
history returns a sequence whose first element is the freshly built entry —
insertion is at the front (newest first). -/
theorem append_then_load_first (fs : FileState) (l : List ReportEntry)
    (rd : ReportData) (nowId nowDate : String) (h : goodStore fs l) :
    ∃ fs₁, save_report_to_history fs rd nowId nowDate = some fs₁
      ∧ ∃ rest, load_history fs₁
          = Json.arr (entryToJson (mkReportEntry rd nowId nowDate) :: rest) := by
  have h' : load_history fs = Json.arr (l.map entryToJson) := h
  refine ⟨FileState.json (Json.arr (entryToJson (mkReportEntry rd nowId nowDate)
      :: l.map entryToJson)), ?_, l.map entryToJson, rfl⟩
  simp [save_report_to_history, h']

/-- Witness for `append_then_load_first` on an initially missing store. -/
theorem append_then_load_first_witness :
    ∃ fs₁, save_report_to_history FileState.missing
        { type := some "Simple Audit", summary := some "Simple Bill Analysis",
          full_report := some "sample report" } "20240105120000" "2024-01-05 12:00" = some fs₁
      ∧ ∃ rest, load_history fs₁
          = Json.arr (entryToJson (mkReportEntry
              { type := some "Simple Audit", summary := some "Simple Bill Analysis",
                full_report := some "sample report" }
              "20240105120000" "2024-01-05 12:00") :: rest) :=
  append_then_load_first FileState.missing []
    { type := some "Simple Audit", summary := some "Simple Bill Analysis",
      full_report := some "sample report" } "20240105120000" "2024-01-05 12:00" rfl

/-- Claim C4: `load_history` is a total function that returns the empty list
when the history file is missing or its contents cannot be parsed — missing
or corrupt storage reads as "no history yet", never as a propagated
failure. -/
theorem load_history_missing_or_unreadable (fs : FileState)
    (h : fs = FileState.missing ∨ fs = FileState.unreadable) :
    load_history fs = Json.arr [] := by
  rcases h with rfl | rfl <;> rfl

/-- Witness for `load_history_missing_or_unreadable` on the missing file. -/
theorem load_history_missing_or_unreadable_witness :
    load_history FileState.missing = Json.arr [] :=
  load_history_missing_or_unreadable FileState.missing (Or.inl rfl)

/-- Claim C8: deleting the same id twice leaves the same final stored state
as deleting it once, for every starting file state (including ill-formed
ones, where both runs raise identically). -/
theorem delete_report_idempotent (fs : FileState) (rid : String) :
    (delete_report fs rid).bind (fun fs₁ => delete_report fs₁ rid)
      = delete_report fs rid := by
  cases hi : pyIterate (load_history fs) with
  | none =>
    have h1 : delete_report fs rid = none := by
      unfold delete_report; simp only [hi]
    rw [h1]; rfl
  | some items =>
    cases hf : filter_by_id items rid with
    | none =>
      have h1 : delete_report fs rid = none := by
        unfold delete_report; simp only [hi, hf]
      rw [h1]; rfl
    | some kept =>
      have hpass := filter_by_id_of_pass kept rid (filter_by_id_mem items rid kept hf)
      have h1 : delete_report fs rid = some (FileState.json (Json.arr kept)) := by
        unfold delete_report; simp only [hi, hf]
      have h2 : delete_report (FileState.json (Json.arr kept)) rid
          = some (FileState.json (Json.arr kept)) := by
        unfold delete_report; simp only [load_history, pyIterate, hpass]
      rw [h1]
      exact h2

/-- Claim C9: when the history file holds valid JSON that is not an array,
`load_history` returns that value unchanged (no list guarantee), and a
subsequent save fails: `history.insert(0, ...)` raises `AttributeError` on
every non-list value. -/
theorem load_nonarray_passthrough (j : Json) (h : isArr j = false) :
    load_history (FileState.json j) = j
    ∧ ∀ rd nowId nowDate, save_report_to_history (FileState.json j) rd nowId nowDate = none := by
  refine ⟨rfl, fun rd nowId nowDate => ?_⟩
  cases j <;> first | rfl | simp [isArr] at h

/-- Witness for `load_nonarray_passthrough` at a JSON object. -/
theorem load_nonarray_passthrough_witness :
    load_history (FileState.json (Json.obj [("a", Json.num 1)])) = Json.obj [("a", Json.num 1)]
    ∧ save_report_to_history (FileState.json (Json.obj [("a", Json.num 1)]))
        { type := none, summary := none, full_report := none } "1" "2" = none :=
  ⟨(load_nonarray_passthrough (Json.obj [("a", Json.num 1)]) rfl).1,
   (load_nonarray_passthrough (Json.obj [("a", Json.num 1)]) rfl).2
     { type := none, summary := none, full_report := none } "1" "2"⟩

/-- Claim C10: the persisted entry always carries all five fields; a missing
`type`, `summary` or `full_report` in the input falls back to `"Unknown"`,
`"No summary"` and `""`, and `id`/`date` are taken from the current-time
formattings. -/
theorem save_persists_all_fields (fs : FileState) (l : List ReportEntry)
    (rd : ReportData) (nowId nowDate : String) (h : goodStore fs l) :
    ∃ fs₁, save_report_to_history fs rd nowId nowDate = some fs₁
      ∧ load_history fs₁
          = Json.arr (entryToJson (mkReportEntry rd nowId nowDate) :: l.map entryToJson)
      ∧ (mkReportEntry rd nowId nowDate).id = nowId
      ∧ (mkReportEntry rd nowId nowDate).date = nowDate
      ∧ jfield (entryToJson (mkReportEntry rd nowId nowDate)) "id" = some (Json.str nowId)
      ∧ jfield (entryToJson (mkReportEntry rd nowId nowDate)) "date" = some (Json.str nowDate)
      ∧ jfield (entryToJson (mkReportEntry rd nowId nowDate)) "type"
          = some (Json.str (rd.type.getD "Unknown"))
      ∧ jfield (entryToJson (mkReportEntry rd nowId nowDate)) "summary"
          = some (Json.str (rd.summary.getD "No summary"))
      ∧ jfield (entryToJson (mkReportEntry rd nowId nowDate)) "full_report"
          = some (Json.str (rd.full_report.getD "")) := by
  have h' : load_history fs = Json.arr (l.map entryToJson) := h
  refine ⟨FileState.json (Json.arr (entryToJson (mkReportEntry rd nowId nowDate)
      :: l.map entryToJson)), ?_, rfl, rfl, rfl, rfl, rfl, rfl, rfl, rfl⟩
  simp [save_report_to_history, h']

/-- Witness for `save_persists_all_fields` with an input dict missing all
three optional keys. -/
theorem save_persists_all_fields_witness :
    ∃ fs₁, save_report_to_history FileState.missing ⟨none, none, none⟩ "1" "2" = some fs₁
      ∧ load_history fs₁ = Json.arr [entryToJson (mkReportEntry ⟨none, none, none⟩ "1" "2")]
      ∧ (mkReportEntry ⟨none, none, none⟩ "1" "2").id = "1"
      ∧ (mkReportEntry ⟨none, none, none⟩ "1" "2").date = "2"
      ∧ jfield (entryToJson (mkReportEntry ⟨none, none, none⟩ "1" "2")) "id"
          = some (Json.str "1")
      ∧ jfield (entryToJson (mkReportEntry ⟨none, none, none⟩ "1" "2")) "date"
          = some (Json.str "2")
      ∧ jfield (entryToJson (mkReportEntry ⟨none, none, none⟩ "1" "2")) "type"
          = some (Json.str "Unknown")
      ∧ jfield (entryToJson (mkReportEntry ⟨none, none, none⟩ "1" "2")) "summary"
          = some (Json.str "No summary")
      ∧ jfield (entryToJson (mkReportEntry ⟨none, none, none⟩ "1" "2")) "full_report"
          = some (Json.str "") :=
  save_persists_all_fields FileState.missing [] ⟨none, none, none⟩ "1" "2" rfl

/-- Claim C5: clicking the detailed-audit button with empty appliance text,
or with no uploaded image, surfaces an `st.error` validation message, never
invokes the remote model, and leaves the store untouched. -/
theorem detailed_validation_blocks_remote (api_key : Bool)
    (gen : String → Except String String) (uploaded : Bool)
    (appliance_info : String) (fs : FileState) (nowId nowDate : String)
    (h : uploaded = false ∨ appliance_info = "") :
    ((detailed_audit_click api_key gen uploaded appliance_info fs nowId nowDate).validation_error).isSome = true
    ∧ (detailed_audit_click api_key gen uploaded appliance_info fs nowId nowDate).remote_calls = 0
    ∧ (detailed_audit_click api_key gen uploaded appliance_info fs nowId nowDate).store = some fs := by
  rcases h with h | h
  · subst h
    simp [detailed_audit_click]
  · subst h
    cases uploaded <;> simp [detailed_audit_click]

/-- Witness for `detailed_validation_blocks_remote`: image present but
appliance text empty. -/
theorem detailed_validation_blocks_remote_witness :
    ((detailed_audit_click true (fun _ => Except.ok "REPORT-X") true "" FileState.missing
        "1" "2").validation_error).isSome = true
    ∧ (detailed_audit_click true (fun _ => Except.ok "REPORT-X") true "" FileState.missing
        "1" "2").remote_calls = 0
    ∧ (detailed_audit_click true (fun _ => Except.ok "REPORT-X") true "" FileState.missing
        "1" "2").store = some FileState.missing :=
  detailed_validation_blocks_remote true (fun _ => Except.ok "REPORT-X") true ""
    FileState.missing "1" "2" (Or.inr rfl)

/-- Claim C6: whatever the remote model does, the detailed-mode prompt text
actually handed to it embeds the appliance free-text verbatim as a
substring. -/
theorem detailed_prompt_contains_info (gen : String → Except String String)
    (p x : String) :
    ∃ a b, (analyze_image_with_gemini true gen p true (some x)).sent = [a ++ (x ++ b)] := by
  refine ⟨promptPreamble ++ p ++ promptGap ++ applianceHeader, promptClosing, ?_⟩
  have hgen : ∀ r : Except String String,
      (match r with
        | Except.ok t =>
          ({ text := t, calls := 1,
             sent := [promptPreamble ++ p ++ promptGap ++ (applianceHeader ++ x)
               ++ promptClosing] } : GenCall)
        | Except.error e =>
          { text := "Error during analysis: " ++ e, calls := 1,
            sent := [promptPreamble ++ p ++ promptGap ++ (applianceHeader ++ x)
              ++ promptClosing] }).sent
      = [promptPreamble ++ p ++ promptGap ++ (applianceHeader ++ x) ++ promptClosing] := by
    intro r; cases r <;> rfl
  have hmain : (analyze_image_with_gemini true gen p true (some x)).sent
      = [promptPreamble ++ p ++ promptGap ++ (applianceHeader ++ x) ++ promptClosing] :=
    hgen (gen (promptPreamble ++ p ++ promptGap ++ (applianceHeader ++ x) ++ promptClosing))
  rw [hmain]
  simp [String.append_assoc]

/-- Claim C7: the assembled simple-audit prompt contains the instruction
asking for exactly 3 reduction recommendations and no appliance-specific
text; in non-detailed mode the appliance section of the f-string is the
empty string. -/
theorem simple_prompt_contents :
    ∃ s, full_prompt simple_prompt false none = some s
      ∧ strHasSub s "5. Provide 3 specific recommendations to reduce this bill." = true
      ∧ strHasSub s applianceHeader = false
      ∧ ∀ info : Option String, additional_section false info = some "" := by
  refine ⟨promptPreamble ++ simple_prompt ++ promptGap ++ "" ++ promptClosing,
    rfl, ?_, ?_, fun info => rfl⟩
  · decide
  · decide

/-- Claim C1, code bug: when the remote call fails, the page flows persist
the error-marker text as a regular history entry.  The guard `if result:`
only checks non-emptiness, and every error path returns a non-empty string,
so a failed analysis is saved exactly like a successful one (the spec says
it should not be persisted). -/
theorem error_report_persisted_bug :
    (simple_audit_click true (fun _ => Except.error "quota exceeded") true
        FileState.missing "20240101120000" "2024-01-01 12:00").displayed
      = some "Error during analysis: quota exceeded"
    ∧ (simple_audit_click true (fun _ => Except.error "quota exceeded") true
        FileState.missing "20240101120000" "2024-01-01 12:00").store
      = some (writeEntries [{ type := "Simple Audit", id := "20240101120000",
                              date := "2024-01-01 12:00", summary := "Simple Bill Analysis",
                              full_report := "Error during analysis: quota exceeded" }])
    ∧ (detailed_audit_click true (fun _ => Except.error "quota exceeded") true
        "2 AC units" FileState.missing "20240101120000" "2024-01-01 12:00").store
      = some (writeEntries [{ type := "Detailed Audit", id := "20240101120000",
                              date := "2024-01-01 12:00",
                              summary := "Detailed Analysis with Appliances",
                              full_report := "Error during analysis: quota exceeded" }]) :=
  ⟨rfl, rfl, rfl⟩

end EnergyAudit
